import Mathlib

/-!
Verification of the voicemessaging-wa gateway (files `whatsapp_api.py` and
`whatsapp_api_multisession.py`) against its natural-language specification.

Modelling conventions (shallow embedding):
* Each FastAPI endpoint body is a pure function from the backend response to
  the API outcome.  A backend response is either a transport-level failure
  (httpx.RequestError, modelled by `Resp.transportError`) or a status code
  with a response body.
* A returned JSON payload is modelled by `ApiResult.success`; a raised
  `HTTPException(status_code, detail)` is modelled by `ApiResult.error`.
* Python strings are modelled by `String` where only equality and substring
  tests matter, and by `List Char` inside the phone-number normalizer, whose
  proofs walk the character list.  Python `"needle" in hay` is `containsSub`.
* Python dicts keyed by chat id are modelled as functions
  `String → Option Summary`; insertion is pointwise functional update `upd`.
  Output ordering of `list(chats.values())` is not modelled: every claim in
  scope is about the per-chat summaries, not their order.
* Timestamps (Python `datetime`, totally ordered by `>`) are modelled as `Nat`.
* Definitions in namespace `WA` come from `whatsapp_api.py`; definitions in
  namespace `WAMS` come from `whatsapp_api_multisession.py`.
-/

/-- Outcome of one outbound HTTP call to the Go backend: either a
transport-level failure (connection refused, timeout, DNS failure — httpx
raises `RequestError`) or a response with a status code and a body text. -/
inductive Resp where
  | transportError : Resp
  | ok (status : Nat) (body : String) : Resp
deriving DecidableEq

/-- Result of one gateway endpoint: a JSON payload (`success`) or a raised
`HTTPException(status_code=..., detail=...)`. -/
inductive ApiResult where
  | success : ApiResult
  | error (status : Nat) (detail : String) : ApiResult
deriving DecidableEq

/-- HTTP status of an endpoint result (a returned payload is a 200). -/
def statusOf : ApiResult → Nat
  | .success => 200
  | .error s _ => s

/-- Substring test on character lists, mirroring the Python `in` operator on
strings. -/
def containsSubList (n : List Char) : List Char → Bool
  | [] => n.isEmpty
  | c :: t => n.isPrefixOf (c :: t) || containsSubList n t

/-- Python `needle in hay` for strings. -/
def containsSub (needle hay : String) : Bool :=
  containsSubList needle.data hay.data

/-- Message record shared by both aggregation endpoints.  Field `chat` is
`message["source"]["chat"]` in `whatsapp_api.py` and `message["chat_id"]` in
the multisession file; `text`/`ctype` are `content["text"]` (possibly null,
hence `Option`) and `content["type"]`; the remaining flags are the is_group,
is_read and is_from_me fields of the respective message shapes. -/
structure Msg where
  chat : String
  is_group : Bool
  text : Option String
  ctype : String
  timestamp : Nat
  is_read : Bool
  is_from_me : Bool
deriving DecidableEq

/-- Functional update of a dict modelled as a partial map: `d[k] = v`. -/
def upd {α : Type} (f : String → Option α) (k : String) (v : α) :
    String → Option α :=
  fun q => if q = k then some v else f q

/-- One step of the latest-message selection implicit in the first
aggregation loop: keep the current candidate unless the new message has a
strictly greater timestamp. -/
def selStep (acc : Option Msg) (m : Msg) : Option Msg :=
  match acc with
  | none => some m
  | some m0 => if m.timestamp > m0.timestamp then some m else some m0

/-- Latest-message selection over a message list (proof-side reference
function used to characterise the aggregation fold). -/
def sel (acc : Option Msg) (l : List Msg) : Option Msg :=
  l.foldl selStep acc

namespace WA

/-- GET /health in whatsapp_api.py: probes GET {GO}/auth/status; 200 maps to
healthy, any other status to degraded, and any exception from the probe to
unhealthy.  Returns the (status, go_service) pair of the response dict. -/
def health_check : Resp → String × String
  | .transportError => ("unhealthy", "down")
  | .ok status _ => if status = 200 then ("healthy", "running")
      else ("degraded", "issues")

/-- GET /auth/qr outcome translation in whatsapp_api.py. -/
def get_qr_code : Resp → ApiResult
  | .transportError => .error 503 "Go service unavailable"
  | .ok status _ =>
    if status = 200 then .success
    else if status = 400 then .error 400 "Already authenticated"
    else if status = 408 then .error 408 "QR generation timeout"
    else .error 500 "Failed to get QR code"

/-- GET /auth/status outcome translation in whatsapp_api.py. -/
def get_auth_status : Resp → ApiResult
  | .transportError => .error 503 "Go service unavailable"
  | .ok status _ =>
    if status = 200 then .success
    else .error 500 "Failed to get auth status"

/-- POST /auth/logout outcome translation in whatsapp_api.py. -/
def logout : Resp → ApiResult
  | .transportError => .error 503 "Go service unavailable"
  | .ok status _ =>
    if status = 200 then .success
    else if status = 400 then .error 400 "Not authenticated"
    else .error 500 "Failed to logout"

/-- POST /auth/pair-phone outcome translation in whatsapp_api.py: on a 400
the response body is inspected for the backend error phrases. -/
def pair_phone : Resp → ApiResult
  | .transportError => .error 503 "Go service unavailable"
  | .ok status body =>
    if status = 200 then .success
    else if status = 400 then
      if containsSub "Already authenticated" body then
        .error 400 "Already authenticated"
      else if containsSub "Phone number is required" body then
        .error 400 "Phone number is required"
      else .error 400 "Invalid phone number format"
    else .error 500 "Failed to generate pairing code"

/-- GET /messages outcome translation in whatsapp_api.py. -/
def get_messages : Resp → ApiResult
  | .transportError => .error 503 "Go service unavailable"
  | .ok status _ =>
    if status = 200 then .success
    else if status = 401 then .error 401 "Not authenticated"
    else .error 500 "Failed to get messages"

/-- GET /messages/{chat_id} outcome translation in whatsapp_api.py. -/
def get_chat_messages : Resp → ApiResult
  | .transportError => .error 503 "Go service unavailable"
  | .ok status _ =>
    if status = 200 then .success
    else if status = 401 then .error 401 "Not authenticated"
    else .error 500 "Failed to get chat messages"

/-- POST /messages/read-status outcome translation in whatsapp_api.py. -/
def update_read_status : Resp → ApiResult
  | .transportError => .error 503 "Go service unavailable"
  | .ok status _ =>
    if status = 200 then .success
    else if status = 401 then .error 401 "Not authenticated"
    else if status = 404 then .error 404 "Message not found"
    else if status = 400 then .error 400 "Invalid request"
    else .error 500 "Failed to update read status"

/-- GET /chats outcome translation in whatsapp_api.py (the 200 branch builds
the aggregation `get_chats_agg` below). -/
def get_chats_http : Resp → ApiResult
  | .transportError => .error 503 "Go service unavailable"
  | .ok status _ =>
    if status = 200 then .success
    else if status = 401 then .error 401 "Not authenticated"
    else .error 500 "Failed to get chats"

/-- Chat summary dict built by GET /chats in whatsapp_api.py. -/
structure Summary where
  chat_id : String
  is_group : Bool
  latest_message : String
  latest_timestamp : Nat
  unread_count : Nat
deriving DecidableEq

/-- Python expression `message["content"]["text"] or f"[{ctype}]"`: the `or`
falls through to the bracketed placeholder when text is None or the empty
string (both falsy). -/
def render (m : Msg) : String :=
  match m.text with
  | none => "[" ++ m.ctype ++ "]"
  | some t => if t = "" then "[" ++ m.ctype ++ "]" else t

/-- Summary dict inserted by the first aggregation loop of GET /chats. -/
def mkEntry (m : Msg) : Summary :=
  { chat_id := m.chat
    is_group := m.is_group
    latest_message := render m
    latest_timestamp := m.timestamp
    unread_count := 0 }

/-- Body of the first aggregation loop of GET /chats: insert the message as
the latest entry of its chat when the chat is unseen or the timestamp is
strictly greater than the stored latest_timestamp. -/
def step1 (chats : String → Option Summary) (m : Msg) :
    String → Option Summary :=
  match chats m.chat with
  | none => upd chats m.chat (mkEntry m)
  | some e =>
    if m.timestamp > e.latest_timestamp then upd chats m.chat (mkEntry m)
    else chats

/-- First aggregation loop of GET /chats over the message list. -/
def pass1 (msgs : List Msg) : String → Option Summary :=
  msgs.foldl step1 (fun _ => none)

/-- Increment of `chats[chat_id]["unread_count"]`. -/
def bumpUnread (e : Summary) : Summary :=
  { e with unread_count := e.unread_count + 1 }

/-- Body of the second aggregation loop of GET /chats: count a message when
it is neither read nor sent by the owner.  A chat id absent from the dict is
left untouched (in GET /chats this branch is unreachable: the first loop
inserted an entry for every chat id occurring in the list). -/
def step2 (chats : String → Option Summary) (m : Msg) :
    String → Option Summary :=
  if !m.is_read && !m.is_from_me then
    match chats m.chat with
    | some e => upd chats m.chat (bumpUnread e)
    | none => chats
  else chats

/-- Second aggregation loop of GET /chats. -/
def pass2 (msgs : List Msg) (chats : String → Option Summary) :
    String → Option Summary :=
  msgs.foldl step2 chats

/-- Per-chat aggregation of GET /chats in whatsapp_api.py: both loops, read
as a map from chat id to its summary. -/
def get_chats_agg (msgs : List Msg) : String → Option Summary :=
  pass2 msgs (pass1 msgs)

end WA

namespace WAMS

/-- Character class matched by `\s` in a Python `re` pattern over `str`
(Unicode mode, the default used by the source): the whitespace set of
CPython, namely codepoints 09–0D, 1C–1F, 20, 85 (NEL), A0 (NBSP), 1680
(Ogham), 2000–200A, 2028, 2029, 202F, 205F and 3000, expressed on the
codepoint `Char.toNat`. -/
def isPySpace (c : Char) : Bool :=
  let n := c.toNat
  decide (9 ≤ n ∧ n ≤ 13) || decide (28 ≤ n ∧ n ≤ 32) ||
  decide (n = 133) || decide (n = 160) || decide (n = 5760) ||
  decide (8192 ≤ n ∧ n ≤ 8202) || decide (n = 8232) || decide (n = 8233) ||
  decide (n = 8239) || decide (n = 8287) || decide (n = 12288)

/-- Character class matched by `\d` in a Python `re` pattern over `str`
(Unicode mode): any Unicode decimal digit (general category Nd), NOT only
the ASCII digits 0–9.  The codepoint ranges below are the Nd blocks of
Unicode 15.1, the database shipped with recent CPython builds; each line
names its script block by first codepoint. -/
def isPyDigit (c : Char) : Bool :=
  let n := c.toNat
  decide (48 ≤ n ∧ n ≤ 57) ||            -- 0030 ASCII
  decide (1632 ≤ n ∧ n ≤ 1641) ||        -- 0660 Arabic-Indic
  decide (1776 ≤ n ∧ n ≤ 1785) ||        -- 06F0 Extended Arabic-Indic
  decide (1984 ≤ n ∧ n ≤ 1993) ||        -- 07C0 NKo
  decide (2406 ≤ n ∧ n ≤ 2415) ||        -- 0966 Devanagari
  decide (2534 ≤ n ∧ n ≤ 2543) ||        -- 09E6 Bengali
  decide (2662 ≤ n ∧ n ≤ 2671) ||        -- 0A66 Gurmukhi
  decide (2790 ≤ n ∧ n ≤ 2799) ||        -- 0AE6 Gujarati
  decide (2918 ≤ n ∧ n ≤ 2927) ||        -- 0B66 Oriya
  decide (3046 ≤ n ∧ n ≤ 3055) ||        -- 0BE6 Tamil
  decide (3174 ≤ n ∧ n ≤ 3183) ||        -- 0C66 Telugu
  decide (3302 ≤ n ∧ n ≤ 3311) ||        -- 0CE6 Kannada
  decide (3430 ≤ n ∧ n ≤ 3439) ||        -- 0D66 Malayalam
  decide (3558 ≤ n ∧ n ≤ 3567) ||        -- 0DE6 Sinhala Lith
  decide (3664 ≤ n ∧ n ≤ 3673) ||        -- 0E50 Thai
  decide (3792 ≤ n ∧ n ≤ 3801) ||        -- 0ED0 Lao
  decide (3872 ≤ n ∧ n ≤ 3881) ||        -- 0F20 Tibetan
  decide (4160 ≤ n ∧ n ≤ 4169) ||        -- 1040 Myanmar
  decide (4240 ≤ n ∧ n ≤ 4249) ||        -- 1090 Myanmar Shan
  decide (6112 ≤ n ∧ n ≤ 6121) ||        -- 17E0 Khmer
  decide (6160 ≤ n ∧ n ≤ 6169) ||        -- 1810 Mongolian
  decide (6470 ≤ n ∧ n ≤ 6479) ||        -- 1946 Limbu
  decide (6608 ≤ n ∧ n ≤ 6617) ||        -- 19D0 New Tai Lue
  decide (6784 ≤ n ∧ n ≤ 6793) ||        -- 1A80 Tai Tham Hora
  decide (6800 ≤ n ∧ n ≤ 6809) ||        -- 1A90 Tai Tham Tham
  decide (6992 ≤ n ∧ n ≤ 7001) ||        -- 1B50 Balinese
  decide (7088 ≤ n ∧ n ≤ 7097) ||        -- 1BB0 Sundanese
  decide (7232 ≤ n ∧ n ≤ 7241) ||        -- 1C40 Lepcha
  decide (7248 ≤ n ∧ n ≤ 7257) ||        -- 1C50 Ol Chiki
  decide (42528 ≤ n ∧ n ≤ 42537) ||      -- A620 Vai
  decide (43216 ≤ n ∧ n ≤ 43225) ||      -- A8D0 Saurashtra
  decide (43264 ≤ n ∧ n ≤ 43273) ||      -- A900 Kayah Li
  decide (43472 ≤ n ∧ n ≤ 43481) ||      -- A9D0 Javanese
  decide (43504 ≤ n ∧ n ≤ 43513) ||      -- A9F0 Myanmar Tai Laing
  decide (43600 ≤ n ∧ n ≤ 43609) ||      -- AA50 Cham
  decide (44016 ≤ n ∧ n ≤ 44025) ||      -- ABF0 Meetei Mayek
  decide (65296 ≤ n ∧ n ≤ 65305) ||      -- FF10 Fullwidth
  decide (66720 ≤ n ∧ n ≤ 66729) ||      -- 104A0 Osmanya
  decide (68912 ≤ n ∧ n ≤ 68921) ||      -- 10D30 Hanifi Rohingya
  decide (69734 ≤ n ∧ n ≤ 69743) ||      -- 11066 Brahmi
  decide (69872 ≤ n ∧ n ≤ 69881) ||      -- 110F0 Sora Sompeng
  decide (69942 ≤ n ∧ n ≤ 69951) ||      -- 11136 Chakma
  decide (70096 ≤ n ∧ n ≤ 70105) ||      -- 111D0 Sharada
  decide (70384 ≤ n ∧ n ≤ 70393) ||      -- 112F0 Khudawadi
  decide (70736 ≤ n ∧ n ≤ 70745) ||      -- 11450 Newa
  decide (70864 ≤ n ∧ n ≤ 70873) ||      -- 114D0 Tirhuta
  decide (71248 ≤ n ∧ n ≤ 71257) ||      -- 11650 Modi
  decide (71360 ≤ n ∧ n ≤ 71369) ||      -- 116C0 Takri
  decide (71472 ≤ n ∧ n ≤ 71481) ||      -- 11730 Ahom
  decide (71904 ≤ n ∧ n ≤ 71913) ||      -- 118E0 Warang Citi
  decide (72016 ≤ n ∧ n ≤ 72025) ||      -- 11950 Dives Akuru
  decide (72784 ≤ n ∧ n ≤ 72793) ||      -- 11C50 Bhaiksuki
  decide (73040 ≤ n ∧ n ≤ 73049) ||      -- 11D50 Masaram Gondi
  decide (73120 ≤ n ∧ n ≤ 73129) ||      -- 11DA0 Gunjala Gondi
  decide (73552 ≤ n ∧ n ≤ 73561) ||      -- 11F50 Kawi
  decide (92768 ≤ n ∧ n ≤ 92777) ||      -- 16A60 Mro
  decide (92864 ≤ n ∧ n ≤ 92873) ||      -- 16AC0 Tangsa
  decide (93008 ≤ n ∧ n ≤ 93017) ||      -- 16B50 Pahawh Hmong
  decide (120782 ≤ n ∧ n ≤ 120831) ||    -- 1D7CE Mathematical
  decide (123200 ≤ n ∧ n ≤ 123209) ||    -- 1E140 Nyiakeng Puachue Hmong
  decide (123632 ≤ n ∧ n ≤ 123641) ||    -- 1E2F0 Wancho
  decide (124144 ≤ n ∧ n ≤ 124153) ||    -- 1E4F0 Nag Mundari
  decide (125264 ≤ n ∧ n ≤ 125273) ||    -- 1E950 Adlam
  decide (130032 ≤ n ∧ n ≤ 130041)       -- 1FBF0 Segmented digits

/-- Characters kept by `re.sub(r'[\s\-\(\)\+]', '', phone)`: everything
except Unicode whitespace (`\s`) and the literal hyphen (codepoint 45),
parentheses (40, 41) and plus sign (43). -/
def stripKeep (c : Char) : Bool :=
  !(isPySpace c || decide (c.toNat = 45) || decide (c.toNat = 40) ||
    decide (c.toNat = 41) || decide (c.toNat = 43))

/-- Removal pass of `validate_phone_number`. -/
def stripChars (s : List Char) : List Char :=
  s.filter stripKeep

/-- Test against the regular expression `^\+[1-9]\d{1,14}$`: a plus sign,
then one character of the literal codepoint range `[1-9]` (ASCII 49–57),
then 1 to 14 characters of the `\d` class — any Unicode decimal digit under
the default Unicode mode of `re` over `str`, see `isPyDigit`. -/
def matchesPattern : List Char → Bool
  | c :: d :: ds =>
    c == '+' && (decide (49 ≤ d.toNat) && decide (d.toNat ≤ 57)) &&
      ds.all (fun x => isPyDigit x) &&
      (decide (1 ≤ ds.length) && decide (ds.length ≤ 14))
  | _ => false

/-- Detail string of the HTTPException raised by `validate_phone_number`. -/
def invalid_phone_msg : List Char :=
  "Invalid international phone number format".data

/-- Function `validate_phone_number` of whatsapp_api_multisession.py on a
string modelled as a character list: strip separators and plus signs, put
back a leading plus (replacing a leading 00 when present), then validate
against the international-format pattern; a mismatch raises
HTTPException(400, "Invalid international phone number format"), modelled as
the `.error` branch. -/
def validate_phone_number (raw : List Char) : Except (List Char) (List Char) :=
  let p1 := stripChars raw
  let p2 :=
    if !(['+'].isPrefixOf p1 || ['0', '0'].isPrefixOf p1) then '+' :: p1
    else if ['0', '0'].isPrefixOf p1 then '+' :: p1.drop 2
    else p1
  if matchesPattern p2 then .ok p2 else .error invalid_phone_msg

/-- GET /health in whatsapp_api_multisession.py: probes GET
{GO}/sessions/list; same mapping as the single-session health check. -/
def health_check : Resp → String × String
  | .transportError => ("unhealthy", "down")
  | .ok status _ => if status = 200 then ("healthy", "running")
      else ("degraded", "issues")

/-- POST /sessions/create outcome translation (after phone validation). -/
def create_session : Resp → ApiResult
  | .transportError => .error 503 "Go service unavailable"
  | .ok status _ =>
    if status = 200 then .success
    else .error 500 "Failed to create session"

/-- GET /sessions/list outcome translation. -/
def list_sessions : Resp → ApiResult
  | .transportError => .error 503 "Go service unavailable"
  | .ok status _ =>
    if status = 200 then .success
    else .error 500 "Failed to list sessions"

/-- GET /sessions/{phone}/status outcome translation. -/
def get_session_status : Resp → ApiResult
  | .transportError => .error 503 "Go service unavailable"
  | .ok status _ =>
    if status = 200 then .success
    else if status = 404 then .error 404 "Session not found"
    else .error 500 "Failed to get session status"

/-- POST /sessions/{phone}/connect outcome translation. -/
def connect_session : Resp → ApiResult
  | .transportError => .error 503 "Go service unavailable"
  | .ok status _ =>
    if status = 200 then .success
    else if status = 404 then .error 404 "Session not found"
    else .error 500 "Failed to connect session"

/-- POST /sessions/{phone}/disconnect outcome translation. -/
def disconnect_session : Resp → ApiResult
  | .transportError => .error 503 "Go service unavailable"
  | .ok status _ =>
    if status = 200 then .success
    else if status = 404 then .error 404 "Session not found"
    else .error 500 "Failed to disconnect session"

/-- DELETE /sessions/{phone} outcome translation. -/
def delete_session : Resp → ApiResult
  | .transportError => .error 503 "Go service unavailable"
  | .ok status _ =>
    if status = 200 then .success
    else if status = 404 then .error 404 "Session not found"
    else .error 500 "Failed to delete session"

/-- GET /sessions/{phone}/auth/qr outcome translation. -/
def get_qr_code : Resp → ApiResult
  | .transportError => .error 503 "Go service unavailable"
  | .ok status _ =>
    if status = 200 then .success
    else if status = 400 then
      .error 400 "Already authenticated or QR not available"
    else if status = 404 then .error 404 "Session not found"
    else .error 500 "Failed to get QR code"

/-- GET /sessions/{phone}/auth/status outcome translation. -/
def get_auth_status : Resp → ApiResult
  | .transportError => .error 503 "Go service unavailable"
  | .ok status _ =>
    if status = 200 then .success
    else if status = 404 then .error 404 "Session not found"
    else .error 500 "Failed to get auth status"

/-- POST /sessions/{phone}/auth/pair-phone outcome translation: on a 400 the
body is inspected only for "Already authenticated"; every other 400 raises
"Failed to generate pairing code". -/
def pair_phone : Resp → ApiResult
  | .transportError => .error 503 "Go service unavailable"
  | .ok status body =>
    if status = 200 then .success
    else if status = 400 then
      if containsSub "Already authenticated" body then
        .error 400 "Already authenticated"
      else .error 400 "Failed to generate pairing code"
    else if status = 404 then .error 404 "Session not found"
    else .error 500 "Failed to generate pairing code"

/-- GET /sessions/{phone}/messages outcome translation. -/
def get_messages : Resp → ApiResult
  | .transportError => .error 503 "Go service unavailable"
  | .ok status _ =>
    if status = 200 then .success
    else if status = 404 then .error 404 "Session not found"
    else .error 500 "Failed to get messages"

/-- GET /sessions/{phone}/messages/{chat_id} outcome translation. -/
def get_chat_messages : Resp → ApiResult
  | .transportError => .error 503 "Go service unavailable"
  | .ok status _ =>
    if status = 200 then .success
    else if status = 404 then .error 404 "Session or chat not found"
    else .error 500 "Failed to get chat messages"

/-- POST /sessions/{phone}/messages/read-status outcome translation. -/
def update_read_status : Resp → ApiResult
  | .transportError => .error 503 "Go service unavailable"
  | .ok status _ =>
    if status = 200 then .success
    else if status = 404 then .error 404 "Session or message not found"
    else if status = 400 then .error 400 "Invalid request"
    else .error 500 "Failed to update read status"

/-- GET /sessions/{phone}/messages/unread-count outcome translation. -/
def get_unread_count : Resp → ApiResult
  | .transportError => .error 503 "Go service unavailable"
  | .ok status _ =>
    if status = 200 then .success
    else if status = 404 then .error 404 "Session not found"
    else .error 500 "Failed to get unread count"

/-- GET /sessions/{phone}/chats outcome translation (the 200 branch builds
the aggregation `get_chats_agg` below). -/
def get_chats_http : Resp → ApiResult
  | .transportError => .error 503 "Go service unavailable"
  | .ok status _ =>
    if status = 200 then .success
    else if status = 404 then .error 404 "Session not found"
    else .error 500 "Failed to get chats"

/-- Chat summary dict built by GET /sessions/{phone}/chats.  Its
latest_message can be the stored text value (possibly null), hence the
`Option String`. -/
structure Summary where
  chat_id : String
  is_group : Bool
  latest_message : Option String
  latest_timestamp : Nat
  unread_count : Nat
deriving DecidableEq

/-- Python expression `message["content"].get("text", f"[{ctype}]")`.  The
content dict is modelled with the text key always present (value possibly
null), matching the single-session content shape; `.get` then returns the
stored value as-is — a null (here `none`) is NOT replaced by the bracketed
placeholder, unlike the single-session `or` expression. -/
def render (m : Msg) : Option String :=
  m.text

/-- Summary dict inserted by the first aggregation loop. -/
def mkEntry (m : Msg) : Summary :=
  { chat_id := m.chat
    is_group := m.is_group
    latest_message := render m
    latest_timestamp := m.timestamp
    unread_count := 0 }

/-- Body of the first aggregation loop of GET /sessions/{phone}/chats. -/
def step1 (chats : String → Option Summary) (m : Msg) :
    String → Option Summary :=
  match chats m.chat with
  | none => upd chats m.chat (mkEntry m)
  | some e =>
    if m.timestamp > e.latest_timestamp then upd chats m.chat (mkEntry m)
    else chats

/-- First aggregation loop of GET /sessions/{phone}/chats. -/
def pass1 (msgs : List Msg) : String → Option Summary :=
  msgs.foldl step1 (fun _ => none)

/-- Increment of `chats[chat_id]["unread_count"]`. -/
def bumpUnread (e : Summary) : Summary :=
  { e with unread_count := e.unread_count + 1 }

/-- Body of the second aggregation loop (identical to the single-session
one). -/
def step2 (chats : String → Option Summary) (m : Msg) :
    String → Option Summary :=
  if !m.is_read && !m.is_from_me then
    match chats m.chat with
    | some e => upd chats m.chat (bumpUnread e)
    | none => chats
  else chats

/-- Second aggregation loop of GET /sessions/{phone}/chats. -/
def pass2 (msgs : List Msg) (chats : String → Option Summary) :
    String → Option Summary :=
  msgs.foldl step2 chats

/-- Per-chat aggregation of GET /sessions/{phone}/chats. -/
def get_chats_agg (msgs : List Msg) : String → Option Summary :=
  pass2 msgs (pass1 msgs)

/-- One entry of the session list returned by GET /sessions/list; the legacy
endpoints read its phone_number key. -/
structure SessionInfo where
  phone_number : List Char

/-- GET /sessions/{phone}/auth/status as called by the legacy endpoint:
validates the phone first (zero backend calls when validation raises), then
performs its single backend call, whose response is the parameter.  Returns
the outcome together with the number of outbound backend calls made. -/
def get_auth_status_op (phone : List Char) (resp : Resp) : ApiResult × Nat :=
  match validate_phone_number phone with
  | .error e => (.error 400 (String.mk e), 0)
  | .ok _ => (get_auth_status resp, 1)

/-- GET /sessions/{phone}/messages as called by the legacy endpoint, with
its backend call count (the limit query parameter plays no role here). -/
def get_messages_op (phone : List Char) (resp : Resp) : ApiResult × Nat :=
  match validate_phone_number phone with
  | .error e => (.error 400 (String.mk e), 0)
  | .ok _ => (get_messages resp, 1)

/-- Legacy GET /auth/status: first awaits list_sessions() — one backend
call, whose outcome is the first parameter (`.error r` when the listing
endpoint raised r because of a non-200 status or a transport failure,
`.ok sessions` when it returned 200 with the given session list).  When no
sessions exist it raises HTTPException(404, "No sessions available") without
a further call; otherwise it delegates to get_auth_status on the first
session listed.  Returns the outcome with the total backend call count. -/
def legacy_get_auth_status (listResult : Except ApiResult (List SessionInfo))
    (delResp : Resp) : ApiResult × Nat :=
  match listResult with
  | .error r => (r, 1)
  | .ok [] => (.error 404 "No sessions available", 1)
  | .ok (s :: _) =>
    let d := get_auth_status_op s.phone_number delResp
    (d.1, 1 + d.2)

/-- Legacy GET /messages, same structure as `legacy_get_auth_status` with
get_messages as the delegate. -/
def legacy_get_messages (listResult : Except ApiResult (List SessionInfo))
    (delResp : Resp) : ApiResult × Nat :=
  match listResult with
  | .error r => (r, 1)
  | .ok [] => (.error 404 "No sessions available", 1)
  | .ok (s :: _) =>
    let d := get_messages_op s.phone_number delResp
    (d.1, 1 + d.2)

end WAMS

/-- Operation families of the outcome translator: one per endpoint that
dispatches a backend call and translates its response (the health probes
translate no outcome — they never raise — and the legacy endpoints reuse the
listed families). -/
inductive Family where
  | waQr | waAuthStatus | waLogout | waPairPhone | waMessages
  | waChatMessages | waReadStatus | waChats
  | msCreateSession | msListSessions | msSessionStatus | msConnect
  | msDisconnect | msDelete | msQr | msAuthStatus | msPairPhone
  | msMessages | msChatMessages | msReadStatus | msUnreadCount | msChats
deriving DecidableEq

/-- Dispatch table from operation family to its endpoint translation. -/
def translateFamily : Family → Resp → ApiResult
  | .waQr => WA.get_qr_code
  | .waAuthStatus => WA.get_auth_status
  | .waLogout => WA.logout
  | .waPairPhone => WA.pair_phone
  | .waMessages => WA.get_messages
  | .waChatMessages => WA.get_chat_messages
  | .waReadStatus => WA.update_read_status
  | .waChats => WA.get_chats_http
  | .msCreateSession => WAMS.create_session
  | .msListSessions => WAMS.list_sessions
  | .msSessionStatus => WAMS.get_session_status
  | .msConnect => WAMS.connect_session
  | .msDisconnect => WAMS.disconnect_session
  | .msDelete => WAMS.delete_session
  | .msQr => WAMS.get_qr_code
  | .msAuthStatus => WAMS.get_auth_status
  | .msPairPhone => WAMS.pair_phone
  | .msMessages => WAMS.get_messages
  | .msChatMessages => WAMS.get_chat_messages
  | .msReadStatus => WAMS.update_read_status
  | .msUnreadCount => WAMS.get_unread_count
  | .msChats => WAMS.get_chats_http

/-- C10: for every operation family, a transport-level failure of the
outbound backend call (connection refused, timeout, DNS failure — an
httpx.RequestError) yields HTTPException(503, "Go service unavailable").
The translation never inspects a status code in this case — the except
branch fires before any status comparison — and the model contains no retry:
each endpoint performs the single dispatched call. -/
theorem claim_C10_transport_failure_unavailable (f : Family) :
    translateFamily f Resp.transportError =
      ApiResult.error 503 "Go service unavailable" := by
  cases f <;> rfl

/-- C9: the health-check operation of either file never propagates a backend
or transport error: it always returns one of the three statuses, and the
mapping is healthy on a 200 probe response, degraded on any other status,
unhealthy when the probe call itself fails. -/
theorem claim_C9_health_check_degrades (r : Resp) (s : Nat) (b : String)
    (h : s ≠ 200) :
    (WA.health_check r = ("healthy", "running") ∨
      WA.health_check r = ("degraded", "issues") ∨
      WA.health_check r = ("unhealthy", "down")) ∧
    WA.health_check (Resp.ok 200 b) = ("healthy", "running") ∧
    WA.health_check (Resp.ok s b) = ("degraded", "issues") ∧
    WA.health_check Resp.transportError = ("unhealthy", "down") ∧
    (WAMS.health_check r = ("healthy", "running") ∨
      WAMS.health_check r = ("degraded", "issues") ∨
      WAMS.health_check r = ("unhealthy", "down")) ∧
    WAMS.health_check (Resp.ok 200 b) = ("healthy", "running") ∧
    WAMS.health_check (Resp.ok s b) = ("degraded", "issues") ∧
    WAMS.health_check Resp.transportError = ("unhealthy", "down") := by
  refine ⟨?_, rfl, ?_, rfl, ?_, rfl, ?_, rfl⟩
  · cases r with
    | transportError => right; right; rfl
    | ok st b2 =>
      by_cases hst : st = 200
      · left; simp [WA.health_check, hst]
      · right; left; simp [WA.health_check, hst]
  · simp [WA.health_check, h]
  · cases r with
    | transportError => right; right; rfl
    | ok st b2 =>
      by_cases hst : st = 200
      · left; simp [WAMS.health_check, hst]
      · right; left; simp [WAMS.health_check, hst]
  · simp [WAMS.health_check, h]

/-- Witness for C9 at a concrete degraded probe (status 500). -/
theorem claim_C9_health_check_degrades_witness :
    (WA.health_check (Resp.ok 500 "") = ("healthy", "running") ∨
      WA.health_check (Resp.ok 500 "") = ("degraded", "issues") ∨
      WA.health_check (Resp.ok 500 "") = ("unhealthy", "down")) ∧
    WA.health_check (Resp.ok 200 "") = ("healthy", "running") ∧
    WA.health_check (Resp.ok 500 "") = ("degraded", "issues") ∧
    WA.health_check Resp.transportError = ("unhealthy", "down") ∧
    (WAMS.health_check (Resp.ok 500 "") = ("healthy", "running") ∨
      WAMS.health_check (Resp.ok 500 "") = ("degraded", "issues") ∨
      WAMS.health_check (Resp.ok 500 "") = ("unhealthy", "down")) ∧
    WAMS.health_check (Resp.ok 200 "") = ("healthy", "running") ∧
    WAMS.health_check (Resp.ok 500 "") = ("degraded", "issues") ∧
    WAMS.health_check Resp.transportError = ("unhealthy", "down") :=
  claim_C9_health_check_degrades (Resp.ok 500 "") 500 "" (by decide)

/-- C1 counterexample: the claim asserts that for BOTH pair-phone endpoints
a 404 maps to NotFound("session") and a plain 400 maps to
InvalidRequest("invalid phone number format").  On the code: the
single-session endpoint has no 404 branch, so a backend 404 falls to the
catch-all HTTPException(500, "Failed to generate pairing code") — a
BackendError, not a NotFound (its status is 500, not 404); and the
session-scoped endpoint maps a 400 whose body has no recognised phrase to
HTTPException(400, "Failed to generate pairing code"), not to the
invalid-format reason. -/
theorem claim_C1_counterexample :
    WA.pair_phone (Resp.ok 404 "Session not found") =
      ApiResult.error 500 "Failed to generate pairing code" ∧
    statusOf (WA.pair_phone (Resp.ok 404 "Session not found")) = 500 ∧
    (500 : Nat) ≠ 404 ∧
    WAMS.pair_phone (Resp.ok 400 "bad request") =
      ApiResult.error 400 "Failed to generate pairing code" ∧
    "Failed to generate pairing code" ≠ "Invalid phone number format" := by
  refine ⟨rfl, rfl, by decide, by decide, by decide⟩

/-- C1 amended: pair-phone outcome translation.  Common to both endpoints:
200 maps to Success and a 400 whose body contains "Already authenticated"
maps to AlreadyAuthenticated.  Single-session endpoint: a 400 with
"Phone number is required" maps to InvalidRequest("Phone number is
required"), any other 400 to InvalidRequest("Invalid phone number format"),
and EVERY other status — 404 included — to BackendError(500, "Failed to
generate pairing code").  Session-scoped endpoint: every 400 without the
"Already authenticated" phrase maps to HTTPException(400, "Failed to
generate pairing code") (no phrase distinction), 404 maps to
NotFound("Session not found"), and every other status to BackendError(500,
"Failed to generate pairing code"). -/
theorem claim_C1_amended (st : Nat) (body : String) :
    (st = 200 → WA.pair_phone (Resp.ok st body) = ApiResult.success ∧
      WAMS.pair_phone (Resp.ok st body) = ApiResult.success) ∧
    (st = 400 → containsSub "Already authenticated" body = true →
      WA.pair_phone (Resp.ok st body) =
        ApiResult.error 400 "Already authenticated" ∧
      WAMS.pair_phone (Resp.ok st body) =
        ApiResult.error 400 "Already authenticated") ∧
    (st = 400 → containsSub "Already authenticated" body = false →
      containsSub "Phone number is required" body = true →
      WA.pair_phone (Resp.ok st body) =
        ApiResult.error 400 "Phone number is required" ∧
      WAMS.pair_phone (Resp.ok st body) =
        ApiResult.error 400 "Failed to generate pairing code") ∧
    (st = 400 → containsSub "Already authenticated" body = false →
      containsSub "Phone number is required" body = false →
      WA.pair_phone (Resp.ok st body) =
        ApiResult.error 400 "Invalid phone number format" ∧
      WAMS.pair_phone (Resp.ok st body) =
        ApiResult.error 400 "Failed to generate pairing code") ∧
    (st = 404 → WA.pair_phone (Resp.ok st body) =
        ApiResult.error 500 "Failed to generate pairing code" ∧
      WAMS.pair_phone (Resp.ok st body) =
        ApiResult.error 404 "Session not found") ∧
    (st ≠ 200 → st ≠ 400 → st ≠ 404 →
      WA.pair_phone (Resp.ok st body) =
        ApiResult.error 500 "Failed to generate pairing code" ∧
      WAMS.pair_phone (Resp.ok st body) =
        ApiResult.error 500 "Failed to generate pairing code") := by
  refine ⟨?_, ?_, ?_, ?_, ?_, ?_⟩
  · rintro rfl; exact ⟨rfl, rfl⟩
  · rintro rfl h; simp [WA.pair_phone, WAMS.pair_phone, h]
  · rintro rfl h1 h2; simp [WA.pair_phone, WAMS.pair_phone, h1, h2]
  · rintro rfl h1 h2; simp [WA.pair_phone, WAMS.pair_phone, h1, h2]
  · rintro rfl; exact ⟨rfl, rfl⟩
  · intro h1 h2 h3
    constructor
    · simp [WA.pair_phone, h1, h2]
    · simp [WAMS.pair_phone, h1, h2, h3]

/-- Witness for C1 amended at a backend 404 with an empty body. -/
theorem claim_C1_amended_witness :
    WA.pair_phone (Resp.ok 404 "") =
      ApiResult.error 500 "Failed to generate pairing code" ∧
    WAMS.pair_phone (Resp.ok 404 "") =
      ApiResult.error 404 "Session not found" :=
  (claim_C1_amended 404 "").2.2.2.2.1 rfl

/-- Shape of a character list accepted by the international-format pattern:
a plus sign, an ASCII digit 1–9, then 1 to 14 further Unicode decimal
digits. -/
theorem matchesPattern_shape (t : List Char)
    (h : WAMS.matchesPattern t = true) :
    ∃ d ds, t = '+' :: d :: ds ∧ 49 ≤ d.toNat ∧ d.toNat ≤ 57 ∧
      (∀ x ∈ ds, WAMS.isPyDigit x = true) ∧ 1 ≤ ds.length ∧
      ds.length ≤ 14 := by
  cases t with
  | nil => simp [WAMS.matchesPattern] at h
  | cons c t1 =>
    cases t1 with
    | nil => simp [WAMS.matchesPattern] at h
    | cons d ds =>
      simp only [WAMS.matchesPattern, Bool.and_eq_true, beq_iff_eq,
        List.all_eq_true, decide_eq_true_eq] at h
      obtain ⟨⟨⟨hc, hd49, hd57⟩, hall⟩, hlen1, hlen14⟩ := h
      subst hc
      exact ⟨d, ds, rfl, hd49, hd57, hall, hlen1, hlen14⟩

/-- Every Unicode decimal digit survives the separator-stripping pass: the
Nd codepoint ranges are disjoint from the stripped whitespace and
punctuation codepoints. -/
theorem stripKeep_of_isPyDigit (c : Char) (h : WAMS.isPyDigit c = true) :
    WAMS.stripKeep c = true := by
  simp only [WAMS.isPyDigit, Bool.or_eq_true, decide_eq_true_eq] at h
  simp only [WAMS.stripKeep, WAMS.isPySpace, Bool.not_eq_true',
    Bool.or_eq_false_iff, decide_eq_false_iff_not]
  omega

/-- Every character of the ASCII range 1–9 survives the stripping pass. -/
theorem stripKeep_of_ascii19 (c : Char) (h49 : 49 ≤ c.toNat)
    (h57 : c.toNat ≤ 57) : WAMS.stripKeep c = true := by
  simp only [WAMS.stripKeep, WAMS.isPySpace, Bool.not_eq_true',
    Bool.or_eq_false_iff, decide_eq_false_iff_not]
  omega

/-- Normalization always checks some cleaned candidate against the pattern:
either that candidate is returned, or the fixed error is raised. -/
theorem validate_eq_candidate (s : List Char) :
    ∃ p, WAMS.validate_phone_number s =
      if WAMS.matchesPattern p then Except.ok p
      else Except.error WAMS.invalid_phone_msg :=
  ⟨_, rfl⟩

/-- Any accepted output of the normalizer matches the pattern and has its
shape: a plus sign, an ASCII digit 1–9, then 1 to 14 Unicode decimal
digits. -/
theorem validate_ok_shape (s r : List Char)
    (h : WAMS.validate_phone_number s = Except.ok r) :
    WAMS.matchesPattern r = true ∧ ∃ d ds, r = '+' :: d :: ds ∧
      49 ≤ d.toNat ∧ d.toNat ≤ 57 ∧ (∀ x ∈ ds, WAMS.isPyDigit x = true) ∧
      1 ≤ ds.length ∧ ds.length ≤ 14 := by
  obtain ⟨p, hp⟩ := validate_eq_candidate s
  rw [hp] at h
  split at h
  · rename_i hm
    injection h with h'
    subst h'
    exact ⟨hm, matchesPattern_shape _ hm⟩
  · exact Except.noConfusion h

/-- C4 counterexample: the claim asserts every accepted output is a leading
plus, a digit 1–9, then 1 to 14 further digits.  But the source validates
with Python `\d` in Unicode mode, which matches any Unicode decimal digit:
on input "1٣" (an ASCII 1 followed by ARABIC-INDIC DIGIT THREE, U+0663) the
normalizer succeeds and returns "+1٣", whose final character is not a digit
0–9 — the output is not in the claimed canonical digit form. -/
theorem claim_C4_counterexample :
    WAMS.validate_phone_number "1٣".data = Except.ok "+1٣".data ∧
    "+1٣".data = ['+', '1', '٣'] ∧
    ('٣' : Char).isDigit = false := by
  refine ⟨by rfl, by rfl, by decide⟩

/-- C4 amended: for every raw input, the normalizer either returns an
identifier consisting of a leading plus, an ASCII digit 1–9, then 1 to 14
further Unicode decimal digits (the `\d` class of Python in Unicode mode —
not necessarily ASCII digits), containing none of the stripped separator or
whitespace characters and no leading 00, or fails with the
"Invalid international phone number format" error; it never returns a
partially-cleaned string and is total (the model is total by construction,
mirroring that the Python function raises only the modelled HTTPException);
and the scenario input "0044123456789" normalizes to "+44123456789". -/
theorem claim_C4_amended :
    WAMS.validate_phone_number "0044123456789".data =
      Except.ok "+44123456789".data ∧
    ∀ (s : List Char),
      (∀ r, WAMS.validate_phone_number s = Except.ok r →
        ∃ d ds, r = '+' :: d :: ds ∧ 49 ≤ d.toNat ∧ d.toNat ≤ 57 ∧
          (∀ x ∈ ds, WAMS.isPyDigit x = true) ∧
          (∀ x ∈ ds, WAMS.stripKeep x = true) ∧
          1 ≤ ds.length ∧ ds.length ≤ 14) ∧
      (∀ e, WAMS.validate_phone_number s = Except.error e →
        e = WAMS.invalid_phone_msg) := by
  refine ⟨by rfl, fun s => ⟨fun r h => ?_, fun e h => ?_⟩⟩
  · obtain ⟨_, d, ds, hr, h49, h57, hds, hl1, hl14⟩ := validate_ok_shape s r h
    exact ⟨d, ds, hr, h49, h57, hds,
      fun x hx => stripKeep_of_isPyDigit x (hds x hx), hl1, hl14⟩
  · obtain ⟨p, hp⟩ := validate_eq_candidate s
    rw [hp] at h
    split at h
    · exact Except.noConfusion h
    · injection h with h'
      exact h'.symm

/-- Witness for C4 amended on the scenario input "0044123456789". -/
theorem claim_C4_amended_witness :
    ∃ d ds, "+44123456789".data = '+' :: d :: ds ∧ 49 ≤ d.toNat ∧
      d.toNat ≤ 57 ∧ (∀ x ∈ ds, WAMS.isPyDigit x = true) ∧
      (∀ x ∈ ds, WAMS.stripKeep x = true) ∧ 1 ≤ ds.length ∧
      ds.length ≤ 14 :=
  (claim_C4_amended.2 "0044123456789".data).1 "+44123456789".data (by rfl)

/-- C5: normalization is idempotent — whenever it succeeds, running it again
on the returned identifier succeeds and returns it unchanged. -/
theorem claim_C5_normalize_idempotent (s r : List Char)
    (h : WAMS.validate_phone_number s = Except.ok r) :
    WAMS.validate_phone_number r = Except.ok r := by
  obtain ⟨hpat, d, ds, rfl, h49, h57, hds, _, _⟩ := validate_ok_shape s r h
  have hplus : WAMS.stripKeep '+' = false := by decide
  have hkeepd : WAMS.stripKeep d = true := stripKeep_of_ascii19 d h49 h57
  have hdsfilter : ds.filter WAMS.stripKeep = ds :=
    List.filter_eq_self.mpr (fun x hx => stripKeep_of_isPyDigit x (hds x hx))
  have hstrip : WAMS.stripChars ('+' :: d :: ds) = d :: ds := by
    simp [WAMS.stripChars, List.filter_cons, hplus, hkeepd, hdsfilter]
  have hdp : ('+' == d) = false := by
    refine beq_eq_false_iff_ne.mpr (fun he => ?_)
    subst he
    exact absurd h49 (by decide)
  have hd0b : ('0' == d) = false := by
    refine beq_eq_false_iff_ne.mpr (fun he => ?_)
    subst he
    exact absurd h49 (by decide)
  have hpre1 : (['+'] : List Char).isPrefixOf (d :: ds) = false := by
    simp [List.isPrefixOf, hdp]
  have hpre0 : (['0', '0'] : List Char).isPrefixOf (d :: ds) = false := by
    simp [List.isPrefixOf, hd0b]
  simp only [WAMS.validate_phone_number, hstrip, hpre1, hpre0,
    Bool.or_self, Bool.not_false, if_true, hpat, if_pos]

/-- Witness for C5 on the canonical identifier produced from
"0044123456789". -/
theorem claim_C5_normalize_idempotent_witness :
    WAMS.validate_phone_number "+44123456789".data =
      Except.ok "+44123456789".data :=
  claim_C5_normalize_idempotent "0044123456789".data "+44123456789".data
    (by rfl)

/-- Reading the updated key returns the stored value. -/
@[simp] theorem upd_self {α : Type} (f : String → Option α) (k : String)
    (v : α) : upd f k v k = some v := by
  simp [upd]

/-- Reading any other key is unchanged by an update. -/
theorem upd_other {α : Type} (f : String → Option α) (k q : String) (v : α)
    (h : q ≠ k) : upd f k v q = f q := by
  simp [upd, h]

@[simp] theorem sel_nil (a : Option Msg) : sel a [] = a := rfl

theorem sel_cons (a : Option Msg) (m : Msg) (l : List Msg) :
    sel a (m :: l) = sel (selStep a m) l := rfl

/-- Selection over a list seeded with a candidate always yields a result. -/
theorem sel_isSome (l : List Msg) : ∀ a : Msg, ∃ m0,
    sel (some a) l = some m0 := by
  induction l with
  | nil => exact fun a => ⟨a, rfl⟩
  | cons m t ih =>
    intro a
    rw [sel_cons]
    simp only [selStep]
    split
    · exact ih m
    · exact ih a

/-- Selection from an empty accumulator fails only on the empty list. -/
theorem sel_none_isSome (l : List Msg) (h : l ≠ []) :
    ∃ m0, sel none l = some m0 := by
  cases l with
  | nil => exact absurd rfl h
  | cons m t =>
    rw [sel_cons]
    exact sel_isSome t m

/-- Core invariant of the strictly-greater replacement fold: the result is
either the seed (when nothing in the list strictly beats it) or the first
element of the list strictly beating the seed and everything before it, with
nothing after it strictly beating it. -/
theorem sel_first_max (l : List Msg) : ∀ (a m0 : Msg),
    sel (some a) l = some m0 →
    (m0 = a ∧ ∀ m ∈ l, m.timestamp ≤ a.timestamp) ∨
    (∃ l₁ l₂, l = l₁ ++ m0 :: l₂ ∧ a.timestamp < m0.timestamp ∧
      (∀ m ∈ l₁, m.timestamp < m0.timestamp) ∧
      (∀ m ∈ l₂, m.timestamp ≤ m0.timestamp)) := by
  induction l with
  | nil =>
    intro a m0 h
    left
    refine ⟨(Option.some.inj h).symm, ?_⟩
    intro m hm
    exact absurd hm (List.not_mem_nil m)
  | cons m t ih =>
    intro a m0 h
    rw [sel_cons] at h
    simp only [selStep] at h
    by_cases hc : m.timestamp > a.timestamp
    · rw [if_pos hc] at h
      rcases ih m m0 h with ⟨rfl, hall⟩ | ⟨l₁, l₂, heq, hlt, h1, h2⟩
      · right
        exact ⟨[], t, rfl, hc, by simp, hall⟩
      · right
        refine ⟨m :: l₁, l₂, by rw [heq]; rfl, lt_trans hc hlt, ?_, h2⟩
        intro x hx
        rcases List.mem_cons.mp hx with rfl | hx2
        · exact hlt
        · exact h1 x hx2
    · rw [if_neg hc] at h
      have hle : m.timestamp ≤ a.timestamp := Nat.le_of_not_lt hc
      rcases ih a m0 h with ⟨he, hall⟩ | ⟨l₁, l₂, heq, hlt, h1, h2⟩
      · left
        refine ⟨he, ?_⟩
        intro x hx
        rcases List.mem_cons.mp hx with rfl | hx2
        · exact hle
        · exact hall x hx2
      · right
        refine ⟨m :: l₁, l₂, by rw [heq]; rfl, hlt, ?_, h2⟩
        intro x hx
        rcases List.mem_cons.mp hx with rfl | hx2
        · exact lt_of_le_of_lt hle hlt
        · exact h1 x hx2

/-- The selected message is the first in iteration order among those with
the maximum timestamp: everything before it is strictly smaller, everything
after it is no greater. -/
theorem sel_none_spec (l : List Msg) (m0 : Msg) (h : sel none l = some m0) :
    ∃ l₁ l₂, l = l₁ ++ m0 :: l₂ ∧
      (∀ m ∈ l₁, m.timestamp < m0.timestamp) ∧
      (∀ m ∈ l₂, m.timestamp ≤ m0.timestamp) := by
  cases l with
  | nil => exact Option.noConfusion h
  | cons m t =>
    rw [sel_cons] at h
    simp only [selStep] at h
    rcases sel_first_max t m m0 h with ⟨rfl, hall⟩ | ⟨l₁, l₂, heq, hlt, h1, h2⟩
    · exact ⟨[], t, rfl, by simp, hall⟩
    · refine ⟨m :: l₁, l₂, by rw [heq]; rfl, ?_, h2⟩
      intro x hx
      rcases List.mem_cons.mp hx with rfl | hx2
      · exact hlt
      · exact h1 x hx2

/-- The selected message belongs to the list and carries its maximum
timestamp. -/
theorem sel_none_max (l : List Msg) (m0 : Msg) (h : sel none l = some m0) :
    m0 ∈ l ∧ ∀ m ∈ l, m.timestamp ≤ m0.timestamp := by
  obtain ⟨l₁, l₂, rfl, h1, h2⟩ := sel_none_spec l m0 h
  constructor
  · exact List.mem_append.mpr (Or.inr (List.mem_cons_self m0 l₂))
  · intro m hm
    rcases List.mem_append.mp hm with hm1 | hm2
    · exact Nat.le_of_lt (h1 m hm1)
    · rcases List.mem_cons.mp hm2 with rfl | hm3
      · exact Nat.le_refl _
      · exact h2 m hm3

/-- Generalised invariant of the first aggregation loop of whatsapp_api.py:
read at a fixed chat id, the fold computes the strictly-greater selection
over the messages of that chat, rendered through `WA.mkEntry`. -/
theorem wa_foldl_step1 (msgs : List Msg) :
    ∀ (F : String → Option WA.Summary) (o : Option Msg) (c : String),
      F c = o.map WA.mkEntry →
      (msgs.foldl WA.step1 F) c =
        (sel o (msgs.filter (fun m => m.chat == c))).map WA.mkEntry := by
  induction msgs with
  | nil =>
    intro F o c h
    simpa using h
  | cons m t ih =>
    intro F o c h
    rw [List.foldl_cons, List.filter_cons]
    by_cases hc : m.chat = c
    · rw [if_pos (by exact beq_iff_eq.mpr hc), sel_cons]
      apply ih
      show WA.step1 F m c = (selStep o m).map WA.mkEntry
      unfold WA.step1
      rw [hc, h]
      cases o with
      | none => simp [selStep]
      | some m0 =>
        simp only [Option.map_some']
        by_cases hts : m.timestamp > m0.timestamp
        · simp [selStep, WA.mkEntry, hts]
        · simp [selStep, WA.mkEntry, hts, h]
    · rw [if_neg (by simp [hc])]
      apply ih
      show WA.step1 F m c = o.map WA.mkEntry
      have hcm : c ≠ m.chat := fun e => hc e.symm
      unfold WA.step1
      cases hFm : F m.chat with
      | none =>
        show upd F m.chat (WA.mkEntry m) c = o.map WA.mkEntry
        simp [upd, hcm, h]
      | some e =>
        show (if m.timestamp > e.latest_timestamp then
            upd F m.chat (WA.mkEntry m) else F) c = o.map WA.mkEntry
        split
        · simp [upd, hcm, h]
        · exact h

/-- First aggregation loop of whatsapp_api.py GET /chats, characterised. -/
theorem wa_pass1_eq (msgs : List Msg) (c : String) :
    WA.pass1 msgs c =
      (sel none (msgs.filter (fun m => m.chat == c))).map WA.mkEntry :=
  wa_foldl_step1 msgs (fun _ => none) none c rfl

/-- Generalised invariant of the second aggregation loop of whatsapp_api.py:
read at a fixed chat id, the fold adds the number of unread incoming
messages of that chat to the stored unread_count (and leaves an absent chat
absent). -/
theorem wa_foldl_step2 (msgs : List Msg) :
    ∀ (F : String → Option WA.Summary) (c : String),
      (msgs.foldl WA.step2 F) c =
        (F c).map (fun e =>
          { e with unread_count := e.unread_count + msgs.countP (fun m =>
              (m.chat == c) && (!m.is_read && !m.is_from_me)) }) := by
  induction msgs with
  | nil =>
    intro F c
    cases hF : F c <;> simp [hF]
  | cons m t ih =>
    intro F c
    rw [List.foldl_cons, ih (WA.step2 F m) c, List.countP_cons]
    by_cases hq : (!m.is_read && !m.is_from_me) = true
    · by_cases hc : m.chat = c
      · cases hF : F c with
        | none =>
          have hstep : WA.step2 F m c = none := by
            unfold WA.step2
            rw [if_pos hq, hc, hF]
            exact hF
          rw [hstep]
          rfl
        | some e =>
          have hstep : WA.step2 F m c = some (WA.bumpUnread e) := by
            unfold WA.step2
            rw [if_pos hq, hc, hF]
            simp
          rw [hstep]
          have hp : ((m.chat == c) && (!m.is_read && !m.is_from_me)) = true := by
            simp [hc, hq]
          rw [hp]
          simp only [Option.map_some', Option.some.injEq, WA.bumpUnread,
            if_true]
          simp only [WA.Summary.mk.injEq, true_and]
          omega
      · have hcm : c ≠ m.chat := fun e => hc e.symm
        have hstep : WA.step2 F m c = F c := by
          unfold WA.step2
          rw [if_pos hq]
          cases hFm : F m.chat with
          | none => rfl
          | some e => exact upd_other F m.chat c (WA.bumpUnread e) hcm
        have hp : ((m.chat == c) && (!m.is_read && !m.is_from_me)) = false := by
          simp [hc]
        rw [hstep, hp]
        simp
    · have hq' : (!m.is_read && !m.is_from_me) = false := by
        revert hq
        cases (!m.is_read && !m.is_from_me) <;> simp
      have hstep : WA.step2 F m c = F c := by
        unfold WA.step2
        rw [hq']
        rfl
      have hp : ((m.chat == c) && (!m.is_read && !m.is_from_me)) = false := by
        rw [hq']
        simp
      rw [hstep, hp]
      simp

/-- Master characterisation of the whatsapp_api.py GET /chats aggregation:
the summary of a chat id is built from the strictly-greater selection over
its messages, with the unread count of the chat. -/
theorem wa_agg_eq (msgs : List Msg) (c : String) :
    WA.get_chats_agg msgs c =
      (sel none (msgs.filter (fun m => m.chat == c))).map
        (fun m0 =>
          { chat_id := m0.chat
            is_group := m0.is_group
            latest_message := WA.render m0
            latest_timestamp := m0.timestamp
            unread_count := msgs.countP
              (fun m => (m.chat == c) && (!m.is_read && !m.is_from_me)) }) := by
  have h1 : WA.get_chats_agg msgs c = (msgs.foldl WA.step2 (WA.pass1 msgs)) c := rfl
  rw [h1, wa_foldl_step2 msgs (WA.pass1 msgs) c, wa_pass1_eq msgs c]
  cases hsel : sel none (msgs.filter (fun m => m.chat == c)) with
  | none => rfl
  | some m0 => simp [WA.mkEntry]

/-- Generalised invariant of the first aggregation loop of
whatsapp_api_multisession.py, identical in structure to the single-session
one (only the rendering of the latest message differs). -/
theorem ms_foldl_step1 (msgs : List Msg) :
    ∀ (F : String → Option WAMS.Summary) (o : Option Msg) (c : String),
      F c = o.map WAMS.mkEntry →
      (msgs.foldl WAMS.step1 F) c =
        (sel o (msgs.filter (fun m => m.chat == c))).map WAMS.mkEntry := by
  induction msgs with
  | nil =>
    intro F o c h
    simpa using h
  | cons m t ih =>
    intro F o c h
    rw [List.foldl_cons, List.filter_cons]
    by_cases hc : m.chat = c
    · rw [if_pos (by exact beq_iff_eq.mpr hc), sel_cons]
      apply ih
      show WAMS.step1 F m c = (selStep o m).map WAMS.mkEntry
      unfold WAMS.step1
      rw [hc, h]
      cases o with
      | none => simp [selStep]
      | some m0 =>
        simp only [Option.map_some']
        by_cases hts : m.timestamp > m0.timestamp
        · simp [selStep, WAMS.mkEntry, hts]
        · simp [selStep, WAMS.mkEntry, hts, h]
    · rw [if_neg (by simp [hc])]
      apply ih
      show WAMS.step1 F m c = o.map WAMS.mkEntry
      have hcm : c ≠ m.chat := fun e => hc e.symm
      unfold WAMS.step1
      cases hFm : F m.chat with
      | none =>
        show upd F m.chat (WAMS.mkEntry m) c = o.map WAMS.mkEntry
        simp [upd, hcm, h]
      | some e =>
        show (if m.timestamp > e.latest_timestamp then
            upd F m.chat (WAMS.mkEntry m) else F) c = o.map WAMS.mkEntry
        split
        · simp [upd, hcm, h]
        · exact h

/-- First aggregation loop of the multisession GET chats, characterised. -/
theorem ms_pass1_eq (msgs : List Msg) (c : String) :
    WAMS.pass1 msgs c =
      (sel none (msgs.filter (fun m => m.chat == c))).map WAMS.mkEntry :=
  ms_foldl_step1 msgs (fun _ => none) none c rfl

/-- Generalised invariant of the second aggregation loop of the multisession
GET chats (identical to the single-session one). -/
theorem ms_foldl_step2 (msgs : List Msg) :
    ∀ (F : String → Option WAMS.Summary) (c : String),
      (msgs.foldl WAMS.step2 F) c =
        (F c).map (fun e =>
          { e with unread_count := e.unread_count + msgs.countP (fun m =>
              (m.chat == c) && (!m.is_read && !m.is_from_me)) }) := by
  induction msgs with
  | nil =>
    intro F c
    cases hF : F c <;> simp [hF]
  | cons m t ih =>
    intro F c
    rw [List.foldl_cons, ih (WAMS.step2 F m) c, List.countP_cons]
    by_cases hq : (!m.is_read && !m.is_from_me) = true
    · by_cases hc : m.chat = c
      · cases hF : F c with
        | none =>
          have hstep : WAMS.step2 F m c = none := by
            unfold WAMS.step2
            rw [if_pos hq, hc, hF]
            exact hF
          rw [hstep]
          rfl
        | some e =>
          have hstep : WAMS.step2 F m c = some (WAMS.bumpUnread e) := by
            unfold WAMS.step2
            rw [if_pos hq, hc, hF]
            simp
          rw [hstep]
          have hp : ((m.chat == c) && (!m.is_read && !m.is_from_me)) = true := by
            simp [hc, hq]
          rw [hp]
          simp only [Option.map_some', Option.some.injEq, WAMS.bumpUnread,
            if_true]
          simp only [WAMS.Summary.mk.injEq, true_and]
          omega
      · have hcm : c ≠ m.chat := fun e => hc e.symm
        have hstep : WAMS.step2 F m c = F c := by
          unfold WAMS.step2
          rw [if_pos hq]
          cases hFm : F m.chat with
          | none => rfl
          | some e => exact upd_other F m.chat c (WAMS.bumpUnread e) hcm
        have hp : ((m.chat == c) && (!m.is_read && !m.is_from_me)) = false := by
          simp [hc]
        rw [hstep, hp]
        simp
    · have hq' : (!m.is_read && !m.is_from_me) = false := by
        revert hq
        cases (!m.is_read && !m.is_from_me) <;> simp
      have hstep : WAMS.step2 F m c = F c := by
        unfold WAMS.step2
        rw [hq']
        rfl
      have hp : ((m.chat == c) && (!m.is_read && !m.is_from_me)) = false := by
        rw [hq']
        simp
      rw [hstep, hp]
      simp

/-- Master characterisation of the multisession GET chats aggregation. -/
theorem ms_agg_eq (msgs : List Msg) (c : String) :
    WAMS.get_chats_agg msgs c =
      (sel none (msgs.filter (fun m => m.chat == c))).map
        (fun m0 =>
          { chat_id := m0.chat
            is_group := m0.is_group
            latest_message := WAMS.render m0
            latest_timestamp := m0.timestamp
            unread_count := msgs.countP
              (fun m => (m.chat == c) && (!m.is_read && !m.is_from_me)) }) := by
  have h1 : WAMS.get_chats_agg msgs c =
      (msgs.foldl WAMS.step2 (WAMS.pass1 msgs)) c := rfl
  rw [h1, ms_foldl_step2 msgs (WAMS.pass1 msgs) c, ms_pass1_eq msgs c]
  cases hsel : sel none (msgs.filter (fun m => m.chat == c)) with
  | none => rfl
  | some m0 => simp [WAMS.mkEntry]

/-- When some message of chat id c occurs in the list, the latest-message
selection over that chat yields a result. -/
theorem occurs_sel_isSome (l : List Msg) (c : String) (m : Msg)
    (hm : m ∈ l) (hc : m.chat = c) :
    ∃ m0, sel none (l.filter (fun x => x.chat == c)) = some m0 := by
  apply sel_none_isSome
  intro hnil
  have hmf : m ∈ l.filter (fun x => x.chat == c) :=
    List.mem_filter.mpr ⟨hm, beq_iff_eq.mpr hc⟩
  rw [hnil] at hmf
  exact List.not_mem_nil m hmf

/-- C2: in both aggregations, for every input list and every chat id
occurring in it, the latest-message fields of that chat (latest_message and
latest_timestamp) are taken from a message m0 of that chat with maximum
timestamp, and on an exact timestamp tie the first-seen one is chosen: the
filtered per-chat sequence splits as l₁ ++ m0 :: l₂ with every message
before m0 strictly older and none after it strictly newer. -/
theorem claim_C2_latest_first_seen_max (l : List Msg) (c : String)
    (h : ∃ m ∈ l, m.chat = c) :
    ∃ m0 l₁ l₂,
      l.filter (fun m => m.chat == c) = l₁ ++ m0 :: l₂ ∧
      (∀ m ∈ l₁, m.timestamp < m0.timestamp) ∧
      (∀ m ∈ l₂, m.timestamp ≤ m0.timestamp) ∧
      (∃ e, WA.get_chats_agg l c = some e ∧
        e.latest_message = WA.render m0 ∧
        e.latest_timestamp = m0.timestamp) ∧
      (∃ e, WAMS.get_chats_agg l c = some e ∧
        e.latest_message = WAMS.render m0 ∧
        e.latest_timestamp = m0.timestamp) := by
  obtain ⟨m, hm, hc⟩ := h
  obtain ⟨m0, hsel⟩ := occurs_sel_isSome l c m hm hc
  obtain ⟨l₁, l₂, heq, h1, h2⟩ := sel_none_spec _ m0 hsel
  refine ⟨m0, l₁, l₂, heq, h1, h2, ?_, ?_⟩
  · rw [wa_agg_eq l c, hsel]
    exact ⟨_, rfl, rfl, rfl⟩
  · rw [ms_agg_eq l c, hsel]
    exact ⟨_, rfl, rfl, rfl⟩

/-- Witness for C2 on a two-message chat with an exact timestamp tie. -/
theorem claim_C2_latest_first_seen_max_witness :
    ∃ m0 l₁ l₂,
      ([⟨"a", false, some "hi", "text", 5, false, false⟩,
        ⟨"a", false, some "yo", "text", 5, true, false⟩] : List Msg).filter
          (fun m => m.chat == "a") = l₁ ++ m0 :: l₂ ∧
      (∀ m ∈ l₁, m.timestamp < m0.timestamp) ∧
      (∀ m ∈ l₂, m.timestamp ≤ m0.timestamp) ∧
      (∃ e, WA.get_chats_agg
          [⟨"a", false, some "hi", "text", 5, false, false⟩,
           ⟨"a", false, some "yo", "text", 5, true, false⟩] "a" = some e ∧
        e.latest_message = WA.render m0 ∧
        e.latest_timestamp = m0.timestamp) ∧
      (∃ e, WAMS.get_chats_agg
          [⟨"a", false, some "hi", "text", 5, false, false⟩,
           ⟨"a", false, some "yo", "text", 5, true, false⟩] "a" = some e ∧
        e.latest_message = WAMS.render m0 ∧
        e.latest_timestamp = m0.timestamp) :=
  claim_C2_latest_first_seen_max
    [⟨"a", false, some "hi", "text", 5, false, false⟩,
     ⟨"a", false, some "yo", "text", 5, true, false⟩] "a"
    ⟨⟨"a", false, some "hi", "text", 5, false, false⟩,
      List.mem_cons_self _ _, rfl⟩

/-- C6: for a chat whose messages in the input carry timestamps T1 < T2 < T3
(as a multiset), the aggregated latest timestamp of that chat equals T3 on
every permutation of the input list, in both implementations. -/
theorem claim_C6_latest_max_any_order (l l2 : List Msg) (c : String)
    (t1 t2 t3 : Nat) (h12 : t1 < t2) (h23 : t2 < t3) (hperm : l2.Perm l)
    (hts : ((l.filter (fun m => m.chat == c)).map Msg.timestamp).Perm
      [t1, t2, t3]) :
    (∃ e, WA.get_chats_agg l2 c = some e ∧ e.latest_timestamp = t3) ∧
    (∃ e, WAMS.get_chats_agg l2 c = some e ∧ e.latest_timestamp = t3) := by
  have hpf : (l2.filter (fun m => m.chat == c)).Perm
      (l.filter (fun m => m.chat == c)) := hperm.filter _
  have hts2 : ((l2.filter (fun m => m.chat == c)).map Msg.timestamp).Perm
      [t1, t2, t3] := (hpf.map Msg.timestamp).trans hts
  have hne : l2.filter (fun m => m.chat == c) ≠ [] := by
    intro hnil
    have hlen := hts2.length_eq
    rw [hnil] at hlen
    simp at hlen
  obtain ⟨m0, hsel⟩ := sel_none_isSome _ hne
  obtain ⟨hmem, hmax⟩ := sel_none_max _ m0 hsel
  have hm0mem : m0.timestamp ∈ ([t1, t2, t3] : List Nat) :=
    hts2.mem_iff.mp (List.mem_map_of_mem Msg.timestamp hmem)
  have ht3mem : t3 ∈ (l2.filter (fun m => m.chat == c)).map Msg.timestamp :=
    hts2.mem_iff.mpr (by simp)
  obtain ⟨m3, hm3mem, hm3ts⟩ := List.mem_map.mp ht3mem
  have hle : t3 ≤ m0.timestamp := hm3ts ▸ hmax m3 hm3mem
  have hge : m0.timestamp ≤ t3 := by
    simp only [List.mem_cons, List.not_mem_nil, or_false] at hm0mem
    rcases hm0mem with h | h | h <;> omega
  have hm0t3 : m0.timestamp = t3 := Nat.le_antisymm hge hle
  constructor
  · rw [wa_agg_eq l2 c, hsel]
    exact ⟨_, rfl, hm0t3⟩
  · rw [ms_agg_eq l2 c, hsel]
    exact ⟨_, rfl, hm0t3⟩

/-- Witness for C6: three messages with timestamps 1 < 2 < 3, aggregated on
a rotated permutation of the input. -/
theorem claim_C6_latest_max_any_order_witness :
    (∃ e, WA.get_chats_agg
        [⟨"a", false, some "y", "text", 2, true, false⟩,
         ⟨"a", false, some "z", "text", 3, true, false⟩,
         ⟨"a", false, some "x", "text", 1, true, false⟩] "a" = some e ∧
      e.latest_timestamp = 3) ∧
    (∃ e, WAMS.get_chats_agg
        [⟨"a", false, some "y", "text", 2, true, false⟩,
         ⟨"a", false, some "z", "text", 3, true, false⟩,
         ⟨"a", false, some "x", "text", 1, true, false⟩] "a" = some e ∧
      e.latest_timestamp = 3) :=
  claim_C6_latest_max_any_order
    [⟨"a", false, some "x", "text", 1, true, false⟩,
     ⟨"a", false, some "y", "text", 2, true, false⟩,
     ⟨"a", false, some "z", "text", 3, true, false⟩]
    [⟨"a", false, some "y", "text", 2, true, false⟩,
     ⟨"a", false, some "z", "text", 3, true, false⟩,
     ⟨"a", false, some "x", "text", 1, true, false⟩] "a" 1 2 3
    (by decide) (by decide) (by decide) (by decide)

/-- C7: in both aggregations, the unread_count of every chat occurring in
the input equals the number of its messages with is_read false and
is_from_me false — a message with is_from_me true never contributes,
whatever its is_read flag, as the counted predicate conjoins both flags. -/
theorem claim_C7_unread_count (l : List Msg) (c : String)
    (h : ∃ m ∈ l, m.chat = c) :
    (∃ e, WA.get_chats_agg l c = some e ∧
      e.unread_count = l.countP (fun m =>
        (m.chat == c) && (!m.is_read && !m.is_from_me))) ∧
    (∃ e, WAMS.get_chats_agg l c = some e ∧
      e.unread_count = l.countP (fun m =>
        (m.chat == c) && (!m.is_read && !m.is_from_me))) := by
  obtain ⟨m, hm, hc⟩ := h
  obtain ⟨m0, hsel⟩ := occurs_sel_isSome l c m hm hc
  constructor
  · rw [wa_agg_eq l c, hsel]
    exact ⟨_, rfl, rfl⟩
  · rw [ms_agg_eq l c, hsel]
    exact ⟨_, rfl, rfl⟩

/-- Witness for C7 on a chat with one unread incoming message and one unread
own message (the latter must not count). -/
theorem claim_C7_unread_count_witness :
    (∃ e, WA.get_chats_agg
        [⟨"a", false, some "in", "text", 1, false, false⟩,
         ⟨"a", false, some "mine", "text", 2, false, true⟩] "a" = some e ∧
      e.unread_count =
        ([⟨"a", false, some "in", "text", 1, false, false⟩,
          ⟨"a", false, some "mine", "text", 2, false, true⟩] : List Msg).countP
          (fun m => (m.chat == "a") && (!m.is_read && !m.is_from_me))) ∧
    (∃ e, WAMS.get_chats_agg
        [⟨"a", false, some "in", "text", 1, false, false⟩,
         ⟨"a", false, some "mine", "text", 2, false, true⟩] "a" = some e ∧
      e.unread_count =
        ([⟨"a", false, some "in", "text", 1, false, false⟩,
          ⟨"a", false, some "mine", "text", 2, false, true⟩] : List Msg).countP
          (fun m => (m.chat == "a") && (!m.is_read && !m.is_from_me))) :=
  claim_C7_unread_count
    [⟨"a", false, some "in", "text", 1, false, false⟩,
     ⟨"a", false, some "mine", "text", 2, false, true⟩] "a"
    ⟨⟨"a", false, some "in", "text", 1, false, false⟩,
      List.mem_cons_self _ _, rfl⟩

/-- C3 counterexample: the claim asserts the two aggregations agree on
latest_message even when the latest message has a null or empty text, both
rendering the bracketed placeholder.  On a single message of content type
"image" with empty text, the single-session code (`text or "[image]"`)
renders "[image]" while the multisession code (`content.get("text", ...)`)
returns the stored empty string — the summaries differ. -/
theorem claim_C3_counterexample :
    (WA.get_chats_agg [⟨"a", false, some "", "image", 5, true, false⟩]
        "a").map (fun e => e.latest_message) = some "[image]" ∧
    (WAMS.get_chats_agg [⟨"a", false, some "", "image", 5, true, false⟩]
        "a").map (fun e => e.latest_message) = some (some "") ∧
    (some "" : Option String) ≠ some "[image]" := by
  refine ⟨rfl, rfl, by decide⟩

/-- C3 amended: on message collections with the same underlying fields, the
two get_chats aggregations ALWAYS produce per-chat summaries agreeing on
chat_id, is_group, latest_timestamp and unread_count (same chats defined,
same values), and their latest_message fields relate as follows: when the
multisession latest_message is a non-empty string, the single-session one is
that same string; when it is null or the empty string (a latest message with
null or empty text), the single-session one is instead a bracketed
content-type placeholder — so the claimed agreement fails exactly on
null/empty texts, where only whatsapp_api.py renders the placeholder. -/
theorem claim_C3_amended (l : List Msg) (c : String) :
    (WA.get_chats_agg l c = none ↔ WAMS.get_chats_agg l c = none) ∧
    (∀ e1 e2, WA.get_chats_agg l c = some e1 →
      WAMS.get_chats_agg l c = some e2 →
      (e1.chat_id = e2.chat_id ∧ e1.is_group = e2.is_group ∧
        e1.latest_timestamp = e2.latest_timestamp ∧
        e1.unread_count = e2.unread_count) ∧
      ((∃ t, e2.latest_message = some t ∧ t ≠ "" ∧
          e1.latest_message = t) ∨
        ((e2.latest_message = none ∨ e2.latest_message = some "") ∧
          ∃ ty, e1.latest_message = "[" ++ ty ++ "]"))) := by
  have hwa := wa_agg_eq l c
  have hms := ms_agg_eq l c
  cases hsel : sel none (l.filter (fun m => m.chat == c)) with
  | none =>
    rw [hsel] at hwa hms
    simp only [Option.map_none'] at hwa hms
    constructor
    · rw [hwa, hms]
      exact ⟨fun _ => rfl, fun _ => rfl⟩
    · intro e1 e2 h1 h2
      rw [hwa] at h1
      exact Option.noConfusion h1
  | some m0 =>
    rw [hsel] at hwa hms
    simp only [Option.map_some'] at hwa hms
    constructor
    · constructor
      · intro hx
        rw [hwa] at hx
        exact Option.noConfusion hx
      · intro hx
        rw [hms] at hx
        exact Option.noConfusion hx
    · intro e1 e2 h1 h2
      rw [hwa] at h1
      rw [hms] at h2
      injection h1 with h1'
      injection h2 with h2'
      subst h1'
      subst h2'
      refine ⟨⟨rfl, rfl, rfl, rfl⟩, ?_⟩
      cases ht : m0.text with
      | none =>
        right
        refine ⟨Or.inl (by simp [WAMS.render, ht]), m0.ctype, ?_⟩
        simp [WA.render, ht]
      | some t =>
        by_cases hte : t = ""
        · right
          subst hte
          refine ⟨Or.inr (by simp [WAMS.render, ht]), m0.ctype, ?_⟩
          simp [WA.render, ht]
        · left
          refine ⟨t, by simp [WAMS.render, ht], hte, ?_⟩
          simp [WA.render, ht, hte]

/-- Witness for C3 amended, exercising the divergence branch at the
empty-text message of the C3 counterexample: the instantiated summaries are
the actual aggregation outputs of that one-message list. -/
theorem claim_C3_amended_witness :
    (∃ t, (some "" : Option String) = some t ∧ t ≠ "" ∧
      ("[image]" : String) = t) ∨
    (((some "" : Option String) = none ∨
        (some "" : Option String) = some "") ∧
      ∃ ty, ("[image]" : String) = "[" ++ ty ++ "]") :=
  ((claim_C3_amended [⟨"a", false, some "", "image", 5, true, false⟩]
      "a").2 ⟨"a", false, "[image]", 5, 0⟩ ⟨"a", false, some "", 5, 0⟩
    rfl rfl).2

/-- C8 counterexample: the claim asserts that whenever the session list is
non-empty, exactly two backend calls occur.  But the delegate first
re-validates the first phone number: with a session list whose first phone
number is "abc", validation raises InvalidRequest(400) and only the
session-listing call is performed — one backend call, not two. -/
theorem claim_C8_counterexample :
    (WAMS.legacy_get_auth_status (Except.ok [⟨"abc".data⟩])
        (Resp.ok 200 "")).2 = 1 ∧
    (1 : Nat) ≠ 2 ∧
    (WAMS.legacy_get_auth_status (Except.ok [⟨"abc".data⟩])
        (Resp.ok 200 "")).1 =
      ApiResult.error 400 "Invalid international phone number format" := by
  refine ⟨rfl, by decide, rfl⟩

/-- C8 amended: every legacy endpoint first performs the session-listing
call; on an empty session list it yields NotFound(404, "No sessions
available") with no further backend call (total one call).  Otherwise it
delegates to the session-scoped equivalent with the first listed phone
number, which first re-validates that phone: when validation succeeds,
exactly two sequential backend calls occur and the delegate outcome is
returned; when validation fails, InvalidRequest(400) is returned after only
the session-listing call. -/
theorem claim_C8_amended (dresp : Resp) (s : WAMS.SessionInfo)
    (rest : List WAMS.SessionInfo) :
    (WAMS.legacy_get_auth_status (Except.ok []) dresp =
      (ApiResult.error 404 "No sessions available", 1)) ∧
    (WAMS.legacy_get_messages (Except.ok []) dresp =
      (ApiResult.error 404 "No sessions available", 1)) ∧
    ((∃ p, WAMS.validate_phone_number s.phone_number = Except.ok p) →
      WAMS.legacy_get_auth_status (Except.ok (s :: rest)) dresp =
        (WAMS.get_auth_status dresp, 2) ∧
      WAMS.legacy_get_messages (Except.ok (s :: rest)) dresp =
        (WAMS.get_messages dresp, 2)) ∧
    (∀ e, WAMS.validate_phone_number s.phone_number = Except.error e →
      WAMS.legacy_get_auth_status (Except.ok (s :: rest)) dresp =
        (ApiResult.error 400 (String.mk e), 1) ∧
      WAMS.legacy_get_messages (Except.ok (s :: rest)) dresp =
        (ApiResult.error 400 (String.mk e), 1)) := by
  refine ⟨rfl, rfl, ?_, ?_⟩
  · rintro ⟨p, hp⟩
    constructor
    · simp [WAMS.legacy_get_auth_status, WAMS.get_auth_status_op, hp]
    · simp [WAMS.legacy_get_messages, WAMS.get_messages_op, hp]
  · intro e he
    constructor
    · simp [WAMS.legacy_get_auth_status, WAMS.get_auth_status_op, he]
    · simp [WAMS.legacy_get_messages, WAMS.get_messages_op, he]

/-- Witness for C8 amended with a valid first session phone number. -/
theorem claim_C8_amended_witness :
    WAMS.legacy_get_auth_status (Except.ok [⟨"+44123456789".data⟩])
        (Resp.ok 200 "") =
      (WAMS.get_auth_status (Resp.ok 200 ""), 2) ∧
    WAMS.legacy_get_messages (Except.ok [⟨"+44123456789".data⟩])
        (Resp.ok 200 "") =
      (WAMS.get_messages (Resp.ok 200 ""), 2) :=
  (claim_C8_amended (Resp.ok 200 "") ⟨"+44123456789".data⟩ []).2.2.1
    ⟨"+44123456789".data, by rfl⟩
